import Mathlib

/-!
Verification development for the playwright-poc test recorder backend
(src/server.js). The definitions below are shallow embeddings of the
step-replay engine (POST /api/test/run), the AI gateway client (callLLM,
extractCode) and the codegen recording-session supervisor
(/api/codegen/start, /status, /save, /stop).
-/

deriving instance DecidableEq for Except

/-! ## Association-list helpers (model of the in-memory Map and filesystem) -/

/-- Lookup in an association list, first binding wins (models Map.get). -/
def lookupKey {α : Type} (k : String) : List (String × α) → Option α
  | [] => none
  | (k', v) :: rest => if k' = k then some v else lookupKey k rest

/-- Remove every binding of a key (models Map.delete and fs.unlinkSync). -/
def eraseKey {α : Type} (k : String) : List (String × α) → List (String × α)
  | [] => []
  | (k', v) :: rest => if k' = k then eraseKey k rest else (k', v) :: eraseKey k rest

theorem lookupKey_eraseKey {α : Type} (k : String) (l : List (String × α)) :
    lookupKey k (eraseKey k l) = none := by
  induction l with
  | nil => rfl
  | cons p rest ih =>
    obtain ⟨k', v⟩ := p
    by_cases h : k' = k
    · simp [eraseKey, h, ih]
    · simp [eraseKey, lookupKey, h, ih]

/-! ## Step replay engine (POST /api/test/run, src/server.js lines 781-855)

A replay step is a JS object with a `type` tag and optional payload
fields; the handler dispatches on `step.type`. The browser-automation
collaborator (Playwright page) is modelled as a function from the issued
call to success or a descriptive error message. -/

/-- A step object as received by the replay handler (only the fields the
handler reads). `timeout` is `Option Nat`, `none` when the caller omitted
the field. -/
structure JStep where
  type : String
  url : String := ""
  selector : String := ""
  value : String := ""
  timeout : Option Nat := none
deriving DecidableEq, Repr

/-- One call issued to the browser-automation collaborator. -/
inductive BrowserCall where
  | goto (url : String)
  | click (selector : String) (timeoutMs : Nat)
  | fill (selector : String) (value : String) (timeoutMs : Nat)
  | waitFor (ms : Nat)
deriving DecidableEq, Repr

/-- JS `step.timeout || 1000`: zero and absent are both falsy. -/
def jsOrDefault (t : Option Nat) (d : Nat) : Nat :=
  match t with
  | some n => if n = 0 then d else n
  | none => d

/-- Which browser call the switch statement issues for a step; `none` for
an unrecognized `type` tag (the switch has no default case). Click and
fill pass the literal `\x7b timeout: 5000 \x7d` option from the source. -/
def stepCall (s : JStep) : Option BrowserCall :=
  if s.type = "navigate" then some (.goto s.url)
  else if s.type = "click" then some (.click s.selector 5000)
  else if s.type = "fill" then some (.fill s.selector s.value 5000)
  else if s.type = "wait" then some (.waitFor (jsOrDefault s.timeout 1000))
  else none

/-- Execute one step against the browser collaborator: run its call if
any; a step with an unknown tag performs no call and succeeds. -/
def execStep (browser : BrowserCall → Except String Unit) (s : JStep) :
    Except String Unit :=
  match stepCall s with
  | some c => browser c
  | none => Except.ok ()

/-- Result for one attempted step, mirroring the pushed objects. -/
structure StepResult where
  stepIndex : Nat
  status : String
  error : Option String := none
deriving DecidableEq, Repr

/-- The replay response body (common fields of the 200 and 500 bodies:
status, per-step results, and the failure reason / top-level error). -/
structure RunResult where
  status : String
  steps : List StepResult
  error : Option String
deriving DecidableEq, Repr

/-- The for-loop over the steps with its break-on-failure, carrying the
current 0-based index. Returns the pushed results and the failureReason. -/
def runSteps (browser : BrowserCall → Except String Unit) :
    List JStep → Nat → List StepResult × Option String
  | [], _ => ([], none)
  | s :: rest, i =>
    match execStep browser s with
    | Except.ok _ =>
      let r := runSteps browser rest (i + 1)
      ({ stepIndex := i, status := "passed" } :: r.1, r.2)
    | Except.error e =>
      ([{ stepIndex := i, status := "failed", error := some e }],
       some ("Step " ++ toString (i + 1) ++ " (" ++ s.type ++ "): " ++ e))

/-- The whole handler: initial navigation, then the step loop. A failed
initial navigation is caught by the outer try and answered with a
complete result object with an empty step list. -/
def runTest (browser : BrowserCall → Except String Unit) (url : String)
    (steps : List JStep) : RunResult :=
  match browser (.goto url) with
  | Except.error e => { status := "failed", steps := [], error := some e }
  | Except.ok _ =>
    let r := runSteps browser steps 0
    { status := if r.2.isSome then "failed" else "passed",
      steps := r.1, error := r.2 }

/-- A sample browser collaborator for sanity checks: clicking selector
"#bad" fails, everything else succeeds. -/
def demoBrowser : BrowserCall → Except String Unit
  | .click "#bad" _ => Except.error "locator resolution failed"
  | _ => Except.ok ()

example :
    runTest demoBrowser "https://example.com"
      [{ type := "navigate", url := "https://example.com/a" },
       { type := "click", selector := "#bad" },
       { type := "fill", selector := "#f", value := "x" }] =
    { status := "failed",
      steps := [{ stepIndex := 0, status := "passed" },
                { stepIndex := 1, status := "failed",
                  error := some "locator resolution failed" }],
      error := some "Step 2 (click): locator resolution failed" } := by
  decide

/-- A browser collaborator whose initial navigation fails. -/
def navFailBrowser : BrowserCall → Except String Unit
  | .goto _ => Except.error "net::ERR_CONNECTION_REFUSED"
  | _ => Except.ok ()


/-- The passed StepResults the loop produces for a block of n succeeding
steps starting at 0-based index i. -/
def passedResults (i : Nat) : Nat → List StepResult
  | 0 => []
  | n + 1 =>
    { stepIndex := i, status := "passed", error := none } ::
      passedResults (i + 1) n

/-- Running a block of succeeding steps prepends one passed StepResult per
step, with consecutive indices, and continues with the remainder. -/
theorem runSteps_append_passed (b : BrowserCall → Except String Unit)
    (pre rest : List JStep) (i : Nat)
    (h : ∀ s ∈ pre, execStep b s = Except.ok ()) :
    runSteps b (pre ++ rest) i =
      (passedResults i pre.length ++ (runSteps b rest (i + pre.length)).1,
       (runSteps b rest (i + pre.length)).2) := by
  induction pre generalizing i with
  | nil => simp [passedResults]
  | cons s pre ih =>
    have hs : execStep b s = Except.ok () := h s (by simp)
    have hpre : ∀ t ∈ pre, execStep b t = Except.ok () := by
      intro t ht; exact h t (by simp [ht])
    have harith : i + 1 + pre.length = i + (pre.length + 1) := by omega
    rw [List.cons_append, runSteps, hs, ih (i + 1) hpre, harith]
    rfl

theorem runSteps_length_le (b : BrowserCall → Except String Unit)
    (l : List JStep) (i : Nat) : (runSteps b l i).1.length ≤ l.length := by
  induction l generalizing i with
  | nil => simp [runSteps]
  | cons s rest ih =>
    cases hs : execStep b s with
    | ok u => simpa [runSteps, hs] using ih (i + 1)
    | error e => simp [runSteps, hs]

theorem runSteps_passed_iff (b : BrowserCall → Except String Unit)
    (l : List JStep) (i : Nat) :
    (runSteps b l i).2 = none ↔
      ∀ sr ∈ (runSteps b l i).1, sr.status = "passed" := by
  induction l generalizing i with
  | nil => simp [runSteps]
  | cons s rest ih =>
    cases hs : execStep b s with
    | ok u => simp [runSteps, hs, ih (i + 1)]
    | error e => simp [runSteps, hs]

theorem runSteps_full_length_iff (b : BrowserCall → Except String Unit)
    (l : List JStep) (i : Nat) :
    (runSteps b l i).1.length = l.length ↔
      ∀ s ∈ l.dropLast, execStep b s = Except.ok () := by
  induction l generalizing i with
  | nil => simp [runSteps]
  | cons s rest ih =>
    cases rest with
    | nil =>
      cases hs : execStep b s with
      | ok u => simp [runSteps, hs]
      | error e => simp [runSteps, hs]
    | cons r rs =>
      have hdrop : (s :: r :: rs).dropLast = s :: (r :: rs).dropLast := rfl
      have hih := ih (i + 1)
      cases hs : execStep b s with
      | ok u =>
        rw [runSteps, hs, hdrop]
        simp only [List.length_cons, List.mem_cons, forall_eq_or_imp]
        constructor
        · intro hlen
          refine ⟨hs, hih.mp ?_⟩
          simpa using hlen
        · intro hall
          have := hih.mpr hall.2
          simpa using this
      | error e =>
        rw [runSteps, hs, hdrop]
        simp only [List.length_cons, List.mem_cons, forall_eq_or_imp]
        constructor
        · intro hlen
          simp at hlen
        · intro hall
          exfalso
          rw [hall.1] at hs
          exact Except.noConfusion hs

/-- C1: a replay run whose first failing step sits at 1-based position
k = pre.length + 1 produces exactly one StepResult per attempted step
(passed results for positions 1..k-1, one failed result for position k),
no StepResult for any later position, overall status "failed", and a
failureReason of the exact shape "Step k (tag): message". -/
theorem C1_replay_fail_fast (b : BrowserCall → Except String Unit)
    (url : String) (pre : List JStep) (f : JStep) (post : List JStep)
    (e : String)
    (hnav : b (.goto url) = Except.ok ())
    (hpre : ∀ s ∈ pre, execStep b s = Except.ok ())
    (hf : execStep b f = Except.error e) :
    runTest b url (pre ++ f :: post) =
      { status := "failed",
        steps := passedResults 0 pre.length ++
          [{ stepIndex := pre.length, status := "failed", error := some e }],
        error := some ("Step " ++ toString (pre.length + 1) ++ " (" ++
          f.type ++ "): " ++ e) } := by
  rw [runTest, hnav]
  rw [runSteps_append_passed b pre (f :: post) 0 hpre]
  rw [runSteps, hf]
  simp

/-- Witness for C1 at a concrete browser and step sequence, matching the
scenario from the spec (click fails at position 2 of 3). -/
theorem C1_replay_fail_fast_witness :
    runTest demoBrowser "https://example.com"
      ([{ type := "navigate", url := "https://example.com/a" }] ++
        ({ type := "click", selector := "#bad" } : JStep) ::
        [{ type := "fill", selector := "#f", value := "x" }]) =
      { status := "failed",
        steps := passedResults 0 1 ++
          [{ stepIndex := 1, status := "failed",
             error := some "locator resolution failed" }],
        error := some ("Step " ++ toString (1 + 1) ++ " (" ++ "click" ++
          "): " ++ "locator resolution failed") } :=
  C1_replay_fail_fast demoBrowser "https://example.com"
    [{ type := "navigate", url := "https://example.com/a" }]
    { type := "click", selector := "#bad" }
    [{ type := "fill", selector := "#f", value := "x" }]
    "locator resolution failed" (by decide) (by decide) (by decide)

/-- C2 counterexample: a single-step run whose only step fails produces a
stepResults list of full length even though a step failed, refuting the
claim that stepResults.length = steps.length holds only when no step
failed. -/
theorem C2_length_iff_counterexample :
    (runTest demoBrowser "https://example.com"
        [{ type := "click", selector := "#bad" }]).steps.length =
      [({ type := "click", selector := "#bad" } : JStep)].length ∧
    (runTest demoBrowser "https://example.com"
        [{ type := "click", selector := "#bad" }]).status = "failed" ∧
    ∃ sr ∈ (runTest demoBrowser "https://example.com"
        [{ type := "click", selector := "#bad" }]).steps,
      sr.status = "failed" := by
  decide

/-- C2 (amended): stepResults.length is at most steps.length; the overall
status is "passed" iff every produced StepResult is passed and the initial
navigation succeeded; and when the initial navigation succeeds, the
lengths are equal iff no step strictly before the last one fails (a run
whose only failure is at the final step also reaches full length). -/
theorem C2_result_guarantees (b : BrowserCall → Except String Unit)
    (url : String) (steps : List JStep) :
    (runTest b url steps).steps.length ≤ steps.length
    ∧ ((runTest b url steps).status = "passed" ↔
        ((∀ sr ∈ (runTest b url steps).steps, sr.status = "passed") ∧
          b (.goto url) = Except.ok ()))
    ∧ (b (.goto url) = Except.ok () →
        ((runTest b url steps).steps.length = steps.length ↔
          ∀ s ∈ steps.dropLast, execStep b s = Except.ok ())) := by
  cases hnav : b (.goto url) with
  | error e =>
    refine ⟨by simp [runTest, hnav], ?_, ?_⟩
    · simp only [runTest, hnav]
      constructor
      · intro hcontr
        exact absurd hcontr (by decide)
      · intro hall
        exact absurd hall.2 (by simp [hnav])
    · intro hok
      exact absurd hok (by simp [hnav])
  | ok u =>
    cases u
    refine ⟨?_, ?_, ?_⟩
    · simpa [runTest, hnav] using runSteps_length_le b steps 0
    · simp only [runTest, hnav]
      cases hr : (runSteps b steps 0).2 with
      | none =>
        have hall := (runSteps_passed_iff b steps 0).mp hr
        simp [hr, hnav]
        exact hall
      | some msg =>
        have hnotall : ¬ ∀ sr ∈ (runSteps b steps 0).1,
            sr.status = "passed" := by
          intro hall
          have h2 := (runSteps_passed_iff b steps 0).mpr hall
          exact Option.noConfusion (h2.symm.trans hr)
        simp [hr, hnotall]
    · intro _
      simpa [runTest, hnav] using runSteps_full_length_iff b steps 0

/-- Witness for C2 (amended) at a concrete run where the middle step
fails: lengths differ and the status iff holds. -/
theorem C2_result_guarantees_witness :
    (runTest demoBrowser "https://example.com"
        [{ type := "click", selector := "#bad" },
         { type := "wait" }]).steps.length ≤ 2
    ∧ ((runTest demoBrowser "https://example.com"
          [{ type := "click", selector := "#bad" },
           { type := "wait" }]).status = "passed" ↔
        ((∀ sr ∈ (runTest demoBrowser "https://example.com"
            [{ type := "click", selector := "#bad" },
             { type := "wait" }]).steps, sr.status = "passed") ∧
          demoBrowser (.goto "https://example.com") = Except.ok ()))
    ∧ ((runTest demoBrowser "https://example.com"
          [{ type := "click", selector := "#bad" },
           { type := "wait" }]).steps.length = 2 ↔
        ∀ s ∈ [({ type := "click", selector := "#bad" } : JStep),
            { type := "wait" }].dropLast,
          execStep demoBrowser s = Except.ok ()) := by
  have h := C2_result_guarantees demoBrowser "https://example.com"
    [{ type := "click", selector := "#bad" }, { type := "wait" }]
  exact ⟨h.1, h.2.1, h.2.2 (by decide)⟩

/-- C8 counterexample: a click step carrying its own timeout of 7000 ms is
dispatched with the hardcoded 5000 ms timeout, refuting the claim that
click and fill steps use the step-level timeout. -/
theorem C8_step_timeout_counterexample :
    stepCall { type := "click", selector := "#a", timeout := some 7000 } =
      some (.click "#a" 5000) ∧
    stepCall { type := "click", selector := "#a", timeout := some 7000 } ≠
      some (.click "#a" 7000) := by
  decide

/-- C8 (amended): click and fill steps are always dispatched with a fixed
5000 ms timeout, ignoring any step-level timeout; wait steps wait the
step-level duration, defaulting to 1000 ms when it is unspecified or zero
(JS falsy); navigate steps issue a goto of the step url. -/
theorem C8_dispatch_timeouts (s : JStep) :
    (s.type = "click" → stepCall s = some (.click s.selector 5000))
    ∧ (s.type = "fill" → stepCall s = some (.fill s.selector s.value 5000))
    ∧ (s.type = "wait" →
        stepCall s = some (.waitFor (jsOrDefault s.timeout 1000)))
    ∧ (s.type = "navigate" → stepCall s = some (.goto s.url)) := by
  refine ⟨?_, ?_, ?_, ?_⟩ <;> intro h <;> simp [stepCall, h]

/-- Witness for C8 (amended) at concrete click and wait steps. -/
theorem C8_dispatch_timeouts_witness :
    stepCall { type := "click", selector := "#b", timeout := some 9000 } =
      some (.click "#b" 5000) ∧
    stepCall { type := "wait", timeout := none } =
      some (.waitFor (jsOrDefault none 1000)) :=
  ⟨(C8_dispatch_timeouts
      { type := "click", selector := "#b", timeout := some 9000 }).1 rfl,
   (C8_dispatch_timeouts { type := "wait", timeout := none }).2.2.1 rfl⟩

/-- C9: when the initial navigation to the target url fails, the run
aborts before any step executes: the response is a complete result object
with status "failed", the navigation error as the top-level error, and an
empty step list (no StepResult for any step). -/
theorem C9_nav_failure_aborts (b : BrowserCall → Except String Unit)
    (url : String) (steps : List JStep) (e : String)
    (h : b (.goto url) = Except.error e) :
    runTest b url steps =
      { status := "failed", steps := [], error := some e } := by
  simp [runTest, h]

/-- Witness for C9 at a browser whose navigation is refused. -/
theorem C9_nav_failure_aborts_witness :
    runTest navFailBrowser "https://down.example"
      [{ type := "click", selector := "#x" }] =
      { status := "failed", steps := [],
        error := some "net::ERR_CONNECTION_REFUSED" } :=
  C9_nav_failure_aborts navFailBrowser "https://down.example"
    [{ type := "click", selector := "#x" }]
    "net::ERR_CONNECTION_REFUSED" (by decide)

/-- C10: a step whose type tag is none of navigate, click, fill, wait
falls through the switch silently: no browser call is issued, the step is
recorded as passed, and the loop continues with the next step. -/
theorem C10_unknown_action_passes (b : BrowserCall → Except String Unit)
    (s : JStep)
    (h : s.type ≠ "navigate" ∧ s.type ≠ "click" ∧ s.type ≠ "fill" ∧
      s.type ≠ "wait") :
    stepCall s = none
    ∧ execStep b s = Except.ok ()
    ∧ ∀ rest i, runSteps b (s :: rest) i =
        ({ stepIndex := i, status := "passed", error := none } ::
            (runSteps b rest (i + 1)).1,
         (runSteps b rest (i + 1)).2) := by
  have hc : stepCall s = none := by
    simp [stepCall, h.1, h.2.1, h.2.2.1, h.2.2.2]
  have he : execStep b s = Except.ok () := by simp [execStep, hc]
  exact ⟨hc, he, fun rest i => by rw [runSteps, he]⟩

/-- Witness for C10 at a concrete hover step followed by a click step. -/
theorem C10_unknown_action_passes_witness :
    stepCall { type := "hover", selector := "#z" } = none
    ∧ execStep demoBrowser { type := "hover", selector := "#z" } =
        Except.ok ()
    ∧ runSteps demoBrowser
        [{ type := "hover", selector := "#z" },
         { type := "click", selector := "#ok" }] 0 =
        ({ stepIndex := 0, status := "passed", error := none } ::
            (runSteps demoBrowser [{ type := "click", selector := "#ok" }] 1).1,
         (runSteps demoBrowser [{ type := "click", selector := "#ok" }] 1).2) :=
  ⟨(C10_unknown_action_passes demoBrowser
      { type := "hover", selector := "#z" } (by decide)).1,
   (C10_unknown_action_passes demoBrowser
      { type := "hover", selector := "#z" } (by decide)).2.1,
   (C10_unknown_action_passes demoBrowser
      { type := "hover", selector := "#z" } (by decide)).2.2
     [{ type := "click", selector := "#ok" }] 0⟩

/-! ## AI gateway client: retry loop (callLLM, src/server.js lines 516-588)

The HTTPS transport is modelled as a function from the 1-based attempt
number to either a response value or the failure message of that attempt.
The embedding records, besides the final result, the attempt numbers made
and the backoff delays (in ms) awaited between attempts. -/

/-- Outcome of one callLLM invocation: the returned or thrown value, the
attempt numbers that ran, and the backoff delays awaited in order. -/
structure LLMOutcome (α : Type) where
  result : Except String α
  attempts : List Nat
  delays : List Nat
deriving DecidableEq, Repr

/-- The attempt loop of callLLM: remaining counts how many attempts are
still allowed, attempt is the current 1-based attempt number. When the
loop runs out (maxRetries < 1) the trailing throw fires. A failure on the
last attempt rethrows with the attempt count appended; otherwise the loop
awaits attempt * 1000 ms and retries. -/
def callLLMGo {α : Type} (transport : Nat → Except String α) :
    Nat → Nat → LLMOutcome α
  | 0, _ =>
    { result := Except.error "LLM request failed after retries",
      attempts := [], delays := [] }
  | remaining + 1, attempt =>
    match transport attempt with
    | Except.ok v => { result := Except.ok v, attempts := [attempt], delays := [] }
    | Except.error e =>
      if remaining = 0 then
        { result := Except.error
            (e ++ " (after " ++ toString attempt ++ " attempt(s))"),
          attempts := [attempt], delays := [] }
      else
        let o := callLLMGo transport remaining (attempt + 1)
        { result := o.result, attempts := attempt :: o.attempts,
          delays := attempt * 1000 :: o.delays }

/-- callLLM with an explicit transport and retry budget: attempts start
at 1 and run while attempt <= maxRetries. -/
def callLLM {α : Type} (transport : Nat → Except String α)
    (maxRetries : Nat) : LLMOutcome α :=
  callLLMGo transport maxRetries 1

/-- JS `parseInt(ENV.AI_RETRIES, 10) || 2`: absent, unparsable, or zero
configuration all fall back to 2. -/
def maxRetriesOf (env : Option Nat) : Nat :=
  match env with
  | some n => if n = 0 then 2 else n
  | none => 2

/-- A mock transport that fails on attempts 1 and 2 and succeeds on
attempt 3, as in the spec scenario. -/
def llmMockTransport : Nat → Except String Nat
  | 1 => Except.error "socket hang up"
  | 2 => Except.error "socket hang up"
  | _ => Except.ok 42

theorem callLLMGo_attempts_le {α : Type} (t : Nat → Except String α)
    (r a : Nat) : (callLLMGo t r a).attempts.length ≤ r := by
  induction r generalizing a with
  | zero => simp [callLLMGo]
  | succ r ih =>
    cases ht : t a with
    | ok v => simp [callLLMGo, ht]
    | error e =>
      by_cases hr : r = 0
      · simp [callLLMGo, ht, hr]
      · simpa [callLLMGo, ht, hr] using ih (a + 1)

theorem callLLMGo_attempts_consecutive {α : Type}
    (t : Nat → Except String α) (r a : Nat) :
    (callLLMGo t r a).attempts =
      List.range' a (callLLMGo t r a).attempts.length := by
  induction r generalizing a with
  | zero => simp [callLLMGo]
  | succ r ih =>
    cases ht : t a with
    | ok v => simp [callLLMGo, ht, List.range']
    | error e =>
      by_cases hr : r = 0
      · simp [callLLMGo, ht, hr, List.range']
      · simp only [callLLMGo, ht, hr, if_false, List.length_cons]
        rw [List.range'_succ]
        exact congrArg (a :: ·) (ih (a + 1))

theorem callLLMGo_attempts_ne_nil {α : Type} (t : Nat → Except String α)
    (r a : Nat) (hr : 1 ≤ r) : (callLLMGo t r a).attempts ≠ [] := by
  cases r with
  | zero => omega
  | succ r =>
    cases ht : t a with
    | ok v => simp [callLLMGo, ht]
    | error e =>
      by_cases h0 : r = 0
      · simp [callLLMGo, ht, h0]
      · simp [callLLMGo, ht, h0]

theorem callLLMGo_delays_spec {α : Type} (t : Nat → Except String α)
    (r a : Nat) :
    (callLLMGo t r a).delays =
      ((callLLMGo t r a).attempts.dropLast).map (fun i => i * 1000) := by
  induction r generalizing a with
  | zero => simp [callLLMGo]
  | succ r ih =>
    cases ht : t a with
    | ok v => simp [callLLMGo, ht]
    | error e =>
      by_cases hr : r = 0
      · simp [callLLMGo, ht, hr]
      · have hne := callLLMGo_attempts_ne_nil t r (a + 1) (by omega)
        simp only [callLLMGo, ht, hr, if_false]
        rw [List.dropLast_cons_of_ne_nil hne, List.map_cons]
        exact congrArg (a * 1000 :: ·) (ih (a + 1))

theorem callLLMGo_exhausted {α : Type} (t : Nat → Except String α)
    (e : Nat → String) (r a : Nat) (hr : 1 ≤ r)
    (hfail : ∀ i, a ≤ i → i ≤ a + r - 1 → t i = Except.error (e i)) :
    (callLLMGo t r a).result =
      Except.error (e (a + r - 1) ++ " (after " ++ toString (a + r - 1) ++
        " attempt(s))") := by
  induction r generalizing a with
  | zero => omega
  | succ r ih =>
    have hta : t a = Except.error (e a) := hfail a (by omega) (by omega)
    by_cases h0 : r = 0
    · subst h0
      simp [callLLMGo, hta]
    · have harith : a + 1 + r - 1 = a + (r + 1) - 1 := by omega
      have hrec := ih (a + 1) (by omega)
        (fun i h1 h2 => hfail i (by omega) (by omega))
      rw [harith] at hrec
      simp [callLLMGo, hta, h0, hrec]

/-- C3: every callLLM invocation makes at most maxRetries attempts, the
attempt numbers being consecutive from 1; every failed non-final attempt
i is followed by a backoff of exactly i * 1000 ms (the recorded delays
are the non-final attempt numbers scaled by 1000, in order); when every
attempt up to maxRetries fails, the call throws an error appending the
attempt count to the last failure message; the retry budget defaults to 2
without a configuration override; and with maxRetries = 3 against a
transport failing twice then succeeding, the call succeeds after backoffs
of exactly 1000 ms and 2000 ms. -/
theorem C3_retry_policy :
    (∀ (t : Nat → Except String Nat) (m : Nat),
      (callLLM t m).attempts.length ≤ m ∧
      (callLLM t m).attempts = List.range' 1 (callLLM t m).attempts.length ∧
      (callLLM t m).delays =
        ((callLLM t m).attempts.dropLast).map (fun i => i * 1000))
    ∧ (∀ (t : Nat → Except String Nat) (e : Nat → String) (m : Nat),
        1 ≤ m → (∀ i, 1 ≤ i → i ≤ m → t i = Except.error (e i)) →
        (callLLM t m).result =
          Except.error (e m ++ " (after " ++ toString m ++ " attempt(s))"))
    ∧ maxRetriesOf none = 2
    ∧ callLLM llmMockTransport 3 =
        { result := Except.ok 42, attempts := [1, 2, 3],
          delays := [1000, 2000] } := by
  refine ⟨?_, ?_, rfl, by decide⟩
  · intro t m
    exact ⟨callLLMGo_attempts_le t m 1,
      callLLMGo_attempts_consecutive t m 1,
      callLLMGo_delays_spec t m 1⟩
  · intro t e m hm hfail
    have h := callLLMGo_exhausted t e m 1 hm
      (fun i h1 h2 => hfail i h1 (by omega))
    have harith : 1 + m - 1 = m := by omega
    rw [harith] at h
    exact h

/-- Transport that always fails, for the C3 witness. -/
def llmAlwaysFail : Nat → Except String Nat :=
  fun _ => Except.error "boom"

/-- Witness for C3 at concrete transports: the exhaustion clause at
maxRetries = 2 and the general clause at the mock transport. -/
theorem C3_retry_policy_witness :
    (callLLM llmAlwaysFail 2).result =
      Except.error ("boom" ++ " (after " ++ toString 2 ++ " attempt(s))") ∧
    (callLLM llmMockTransport 3).attempts.length ≤ 3 :=
  ⟨C3_retry_policy.2.1 llmAlwaysFail (fun _ => "boom") 2 (by omega)
      (fun i h1 h2 => rfl),
   (C3_retry_policy.1 llmMockTransport 3).1⟩

/-! ## AI gateway client: response normalization (extractCode,
src/server.js lines 692-725)

The JS values flowing through extractCode are modelled as strings,
objects with string keys, and null (the JS value that makes the function
throw). JSON.parse is an external library call; it is modelled for the
subset of JSON the normalizer meets: objects whose values are strings or
nested objects. Numbers, arrays, booleans, JSON null and duplicate keys
are outside the modelled subset (parsing them is treated as a parse
failure, which the source catches and ignores). -/

/-- A JS value as seen by extractCode. -/
inductive JSValue where
  | str (s : String)
  | obj (fields : List (String × JSValue))
  | null

/-- JS truthiness for the modelled values: the empty string and null are
falsy, every other string and every object is truthy. -/
def truthy : JSValue → Bool
  | .str s => s ≠ ""
  | .obj _ => true
  | .null => false

/-- The backtick character, written by code point to keep it out of the
source text. -/
def backtickChar : Char := Char.ofNat 96

/-- The opening curly brace character, by code point. -/
def lbraceChar : Char := Char.ofNat 123

/-- The closing curly brace character, by code point. -/
def rbraceChar : Char := Char.ofNat 125

/-- Whitespace for the purposes of String.prototype.trim and the regex
class backslash-s, restricted to the common four characters. -/
def isWsChar (c : Char) : Bool :=
  c = ' ' || c = Char.ofNat 10 || c = Char.ofNat 9 || c = Char.ofNat 13

/-- JS String.prototype.trim on a character list. -/
def trimChars (cs : List Char) : List Char :=
  ((cs.dropWhile isWsChar).reverse.dropWhile isWsChar).reverse

/-- Does the text start with three backticks? -/
def startsWithFence (cs : List Char) : Bool :=
  match cs with
  | a :: b :: c :: _ => a = backtickChar && b = backtickChar && c = backtickChar
  | _ => false

/-- Does the text start with the given character? -/
def startsWithChar (c : Char) (cs : List Char) : Bool :=
  match cs with
  | a :: _ => a = c
  | _ => false

/-- An ASCII letter, the regex class a-zA-Z. -/
def isAsciiLetter (c : Char) : Bool :=
  ('a' ≤ c && c ≤ 'z') || ('A' ≤ c && c ≤ 'Z')

/-- The replace of regex caret-backtick-backtick-backtick-letters-ws with
the empty string: if the text starts with three backticks, drop them, the
following letters, and the following whitespace; otherwise unchanged. -/
def stripLeadFence (cs : List Char) : List Char :=
  match cs with
  | a :: b :: c :: rest =>
    if a = backtickChar && b = backtickChar && c = backtickChar then
      (rest.dropWhile isAsciiLetter).dropWhile isWsChar
    else cs
  | _ => cs

/-- The replace of regex backtick-backtick-backtick-ws-dollar with the
empty string: the leftmost match is the final run of three backticks
followed only by whitespace, so drop the trailing whitespace and, if
three backticks end the remainder, drop them too; otherwise unchanged. -/
def stripTrailFence (cs : List Char) : List Char :=
  match cs.reverse.dropWhile isWsChar with
  | a :: b :: c :: rest =>
    if a = backtickChar && b = backtickChar && c = backtickChar then
      rest.reverse
    else cs
  | _ => cs

/-- Decode one JSON string escape character. -/
def escChar (c : Char) : Option Char :=
  if c = '"' then some '"'
  else if c = '\\' then some '\\'
  else if c = '/' then some '/'
  else if c = 'n' then some (Char.ofNat 10)
  else if c = 't' then some (Char.ofNat 9)
  else if c = 'r' then some (Char.ofNat 13)
  else none

/-- Parse the body of a JSON string literal (the opening quote already
consumed), returning the decoded characters and the rest of the input. -/
def parseStrLit : List Char → Option (List Char × List Char)
  | [] => none
  | '"' :: cs => some ([], cs)
  | '\\' :: e :: cs =>
    match escChar e with
    | none => none
    | some ec =>
      match parseStrLit cs with
      | none => none
      | some (s, r) => some (ec :: s, r)
  | c :: cs =>
    match parseStrLit cs with
    | none => none
    | some (s, r) => some (c :: s, r)

mutual

/-- Parse one JSON value of the modelled subset (string or object). -/
def parseJsonValue : Nat → List Char → Option (JSValue × List Char)
  | 0, _ => none
  | fuel + 1, cs =>
    match cs.dropWhile isWsChar with
    | [] => none
    | c :: rest =>
      if c = '"' then
        match parseStrLit rest with
        | none => none
        | some (s, r) => some (JSValue.str (String.mk s), r)
      else if c = lbraceChar then
        match rest.dropWhile isWsChar with
        | [] => none
        | d :: rest2 =>
          if d = rbraceChar then some (JSValue.obj [], rest2)
          else parseJsonPairs fuel (d :: rest2) []
      else none

/-- Parse the members of a JSON object after the opening brace, given the
fields already read. -/
def parseJsonPairs : Nat → List Char →
    List (String × JSValue) → Option (JSValue × List Char)
  | 0, _, _ => none
  | fuel + 1, cs, acc =>
    match cs.dropWhile isWsChar with
    | [] => none
    | c :: rest =>
      if c = '"' then
        match parseStrLit rest with
        | none => none
        | some (key, r1) =>
          match r1.dropWhile isWsChar with
          | ':' :: r2 =>
            match parseJsonValue fuel r2 with
            | none => none
            | some (v, r3) =>
              match r3.dropWhile isWsChar with
              | ',' :: r4 =>
                parseJsonPairs fuel r4 (acc ++ [(String.mk key, v)])
              | d :: r4 =>
                if d = rbraceChar then
                  some (JSValue.obj (acc ++ [(String.mk key, v)]), r4)
                else none
              | [] => none
          | _ => none
      else none

end

/-- JSON.parse on the modelled subset: the whole input must be consumed
up to trailing whitespace. -/
def jsonParse (s : String) : Option JSValue :=
  match parseJsonValue (s.data.length + 1) s.data with
  | none => none
  | some (v, rest) =>
    match rest.dropWhile isWsChar with
    | [] => some v
    | _ => none

/-- One iteration of the unwrap loop of extractCode. Except models the
uncaught TypeError thrown when the value is null (typeof null is
"object", so the content access fires). The Option distinguishes a fired
branch (continue with the new value) from fall-through (the strict
equality check then breaks the loop, the value being unchanged). -/
def extractStep : JSValue → Except String (Option JSValue)
  | .null => Except.error "TypeError: cannot read content of null"
  | .obj fields =>
    match lookupKey "content" fields with
    | some c => if truthy c then Except.ok (some c) else Except.ok none
    | none => Except.ok none
  | .str s =>
    if startsWithFence (trimChars s.data) then
      Except.ok (some (JSValue.str
        (String.mk (trimChars (stripTrailFence (stripLeadFence s.data))))))
    else if startsWithChar lbraceChar (trimChars s.data) then
      match jsonParse s with
      | some (JSValue.obj fields) =>
        match lookupKey "code" fields with
        | some c => if truthy c then Except.ok (some c) else Except.ok none
        | none => Except.ok none
      | _ => Except.ok none
    else Except.ok none

/-- The for-loop of extractCode, bounded to 10 iterations. -/
def extractLoop : Nat → JSValue → Except String JSValue
  | 0, v => Except.ok v
  | fuel + 1, v =>
    match extractStep v with
    | Except.error e => Except.error e
    | Except.ok none => Except.ok v
    | Except.ok (some w) => extractLoop fuel w

/-- The trailing return: a string result is returned as is, anything else
degrades to the empty string. -/
def finalizeJS : JSValue → String
  | .str s => s
  | _ => ""

/-- extractCode itself: run the bounded loop, then finalize; an Except
error is the uncaught TypeError propagating out of the function. -/
def extractCode (v : JSValue) : Except String String :=
  match extractLoop 10 v with
  | Except.error e => Except.error e
  | Except.ok w => Except.ok (finalizeJS w)

example :
    extractCode (.str "```json\n\x7b\"code\":\"await page.goto('x')\"\x7d\n```") =
      Except.ok "await page.goto('x')" := by rfl

/-- The pure view of one loop iteration: the new value when a branch
fired, the old value otherwise. -/
def stepO (v : JSValue) : JSValue :=
  match extractStep v with
  | Except.ok (some w) => w
  | _ => v

theorem truthy_ne_null (c : JSValue) (h : truthy c = true) :
    c ≠ JSValue.null := by
  cases c with
  | str s => exact fun hc => JSValue.noConfusion hc
  | obj f => exact fun hc => JSValue.noConfusion hc
  | null => exact absurd h (by simp [truthy])

theorem extractStep_no_error (v : JSValue) (h : v ≠ JSValue.null)
    (e : String) : extractStep v ≠ Except.error e := by
  cases v with
  | null => exact absurd rfl h
  | obj fields =>
    simp only [extractStep]
    repeat' split
    all_goals simp
  | str s =>
    simp only [extractStep]
    repeat' split
    all_goals simp

theorem extractStep_some_ne_null (v w : JSValue)
    (h : extractStep v = Except.ok (some w)) : w ≠ JSValue.null := by
  cases v with
  | null => exact absurd h (by simp [extractStep])
  | obj fields =>
    cases hl : lookupKey "content" fields with
    | none => simp [extractStep, hl] at h
    | some c =>
      by_cases ht : truthy c = true
      · simp [extractStep, hl, ht] at h
        subst h
        exact truthy_ne_null _ ht
      · simp [extractStep, hl, ht] at h
  | str s =>
    by_cases hf : startsWithFence (trimChars s.data) = true
    · simp [extractStep, hf] at h
      subst h
      simp
    · by_cases hb : startsWithChar lbraceChar (trimChars s.data) = true
      · cases hj : jsonParse s with
        | none => simp [extractStep, hf, hb, hj] at h
        | some pv =>
          cases pv with
          | str s2 => simp [extractStep, hf, hb, hj] at h
          | null => simp [extractStep, hf, hb, hj] at h
          | obj fields =>
            cases hl : lookupKey "code" fields with
            | none => simp [extractStep, hf, hb, hj, hl] at h
            | some c =>
              by_cases ht : truthy c = true
              · simp [extractStep, hf, hb, hj, hl, ht] at h
                subst h
                exact truthy_ne_null _ ht
              · simp [extractStep, hf, hb, hj, hl, ht] at h
      · simp [extractStep, hf, hb] at h

theorem stepO_fixed_iterate (v : JSValue) (h : stepO v = v) (n : Nat) :
    stepO^[n] v = v := by
  induction n with
  | zero => rfl
  | succ n ih => rw [Function.iterate_succ_apply, h, ih]

theorem extractLoop_eq_iterate (fuel : Nat) (v : JSValue)
    (h : v ≠ JSValue.null) :
    extractLoop fuel v = Except.ok (stepO^[fuel] v) := by
  induction fuel generalizing v with
  | zero => rfl
  | succ fuel ih =>
    cases hs : extractStep v with
    | error e => exact absurd hs (extractStep_no_error v h e)
    | ok o =>
      cases o with
      | none =>
        have hfix : stepO v = v := by simp [stepO, hs]
        rw [extractLoop, hs, Function.iterate_succ_apply, hfix,
          stepO_fixed_iterate v hfix fuel]
      | some w =>
        have hw : stepO v = w := by simp [stepO, hs]
        rw [extractLoop, hs, Function.iterate_succ_apply, hw]
        exact ih w (extractStep_some_ne_null v w hs)

/-- C4 counterexample: extractCode applied to the JS value null throws a
TypeError (typeof null is "object", so the loop reads .content of null),
refuting the claim that the normalizer never raises an error for every
input value. -/
theorem C4_null_throws_counterexample :
    extractCode JSValue.null =
      Except.error "TypeError: cannot read content of null" := by
  rfl

/-- C4 (amended): for every non-null input value the normalizer never
raises, terminates within its fixed bound of 10 iterations (its result is
the 10-fold pure iteration of one unwrap pass, so breaking as soon as an
iteration fires no branch loses nothing), and returns a plain string,
the empty string when the final value is not a string; on the fenced
JSON response from the spec scenario it returns exactly the inner code
string. On the null input it instead throws a TypeError. -/
theorem C4_normalization_total :
    (∀ v : JSValue, v ≠ JSValue.null →
      extractCode v = Except.ok (finalizeJS (stepO^[10] v)))
    ∧ (∀ v : JSValue, extractStep v = Except.ok none →
      extractCode v = Except.ok (finalizeJS v))
    ∧ extractCode
        (.str "```json\n\x7b\"code\":\"await page.goto('x')\"\x7d\n```") =
      Except.ok "await page.goto('x')" := by
  refine ⟨?_, ?_, by rfl⟩
  · intro v hv
    rw [extractCode, extractLoop_eq_iterate 10 v hv]
  · intro v hs
    have hv : v ≠ JSValue.null := by
      intro hc
      subst hc
      simp [extractStep] at hs
    have hfix : stepO v = v := by simp [stepO, hs]
    rw [extractCode, extractLoop_eq_iterate 10 v hv,
      stepO_fixed_iterate v hfix 10]

/-- Witness for C4 (amended) at a concrete plain string input. -/
theorem C4_normalization_total_witness :
    extractCode (JSValue.str "hello") =
      Except.ok (finalizeJS (stepO^[10] (JSValue.str "hello"))) :=
  C4_normalization_total.1 (JSValue.str "hello")
    (fun hc => JSValue.noConfusion hc)

/-! ## Codegen recording-session supervisor
(src/server.js lines 95-319: /api/codegen/start, /status, /save, /stop)

The in-memory session map, the spawned subprocess handles, and the
artifact files are modelled as association lists keyed by session id
resp. path. A ProcHandle carries the subprocess.killed flag (set by
kill()) and whether the OS process has actually terminated (the close
event); subprocess.killed stays false when the process exits on its own. -/

/-- The state of one spawned codegen subprocess. -/
structure ProcHandle where
  killed : Bool
  exited : Bool
deriving DecidableEq, Repr

/-- Whether the OS process is still alive. -/
def ProcHandle.alive (p : ProcHandle) : Bool := !p.exited

/-- One registered codegen session (the fields of sessionData). -/
structure CodegenSession where
  sessionId : String
  testName : String
  url : String
  outputFile : String
  generatedCode : String
deriving DecidableEq, Repr

/-- The server state the codegen endpoints touch: the session registry,
the subprocess handles (keyed by session id), and the filesystem. -/
structure ServerState where
  sessions : List (String × CodegenSession)
  procs : List (String × ProcHandle)
  fs : List (String × String)
deriving DecidableEq, Repr

/-- The empty server state at boot. -/
def initState : ServerState := { sessions := [], procs := [], fs := [] }

/-- The error responses of the codegen endpoints that the claims
distinguish; notFound is the 404 "Session not found" answer. -/
inductive ApiError where
  | notFound
deriving DecidableEq, Repr

/-- POST /api/codegen/start (spawn succeeded): registers the session and
its live subprocess; the artifact path is session-unique. -/
def startCodegen (st : ServerState) (sessionId url testName : String) :
    ServerState :=
  let outputFile := ".codegen-" ++ sessionId ++ ".ts"
  { sessions := (sessionId,
      { sessionId, testName, url, outputFile, generatedCode := "" }) ::
      eraseKey sessionId st.sessions,
    procs := (sessionId, { killed := false, exited := false }) ::
      eraseKey sessionId st.procs,
    fs := st.fs }

/-- The close event of the subprocess: the OS process has terminated on
its own; the handler caches the artifact content in the session if the
file exists. The killed flag is untouched. -/
def closeEvent (st : ServerState) (sessionId : String) : ServerState :=
  { sessions :=
      match lookupKey sessionId st.sessions with
      | some s =>
        match lookupKey s.outputFile st.fs with
        | some content =>
          (sessionId, { s with generatedCode := content }) ::
            eraseKey sessionId st.sessions
        | none => st.sessions
      | none => st.sessions,
    procs :=
      match lookupKey sessionId st.procs with
      | some p =>
        (sessionId, { p with exited := true }) :: eraseKey sessionId st.procs
      | none => st.procs,
    fs := st.fs }

/-- The status response body (GET /api/codegen/status/:sessionId). -/
structure StatusResp where
  sessionId : String
  isRunning : Bool
  generatedCode : String
  testName : String
  url : String
deriving DecidableEq, Repr

/-- GET /api/codegen/status/:sessionId: 404 for an unknown id; otherwise
isRunning is session.process && !session.process.killed, and the code is
the artifact file content, empty when the file does not exist yet. -/
def statusReq (st : ServerState) (sessionId : String) :
    Except ApiError StatusResp :=
  match lookupKey sessionId st.sessions with
  | none => Except.error ApiError.notFound
  | some s =>
    let isRunning :=
      match lookupKey sessionId st.procs with
      | some p => !p.killed
      | none => false
    let generatedCode := (lookupKey s.outputFile st.fs).getD ""
    Except.ok
      { sessionId := sessionId, isRunning := isRunning,
        generatedCode := generatedCode, testName := s.testName,
        url := s.url }

/-- The persisted test record built by /api/codegen/save. -/
structure TestRecord where
  id : String
  name : String
  url : String
  type : String
  code : String
  createdAt : String
  status : String
deriving DecidableEq, Repr

/-- POST /api/codegen/save: 404 for an unknown id; otherwise reads the
artifact one final time (empty when missing), builds the test record,
deletes the artifact file, and deregisters the session. The subprocess
handle is not touched: save never kills the process. nowMs and nowIso
stand for Date.now() and new Date().toISOString(). -/
def saveReq (st : ServerState) (sessionId testName : String)
    (nowMs : Nat) (nowIso : String) :
    Except ApiError (TestRecord × ServerState) :=
  match lookupKey sessionId st.sessions with
  | none => Except.error ApiError.notFound
  | some s =>
    let generatedCode := (lookupKey s.outputFile st.fs).getD ""
    let test : TestRecord :=
      { id := "test:" ++ toString nowMs,
        name := if testName = "" then s.testName else testName,
        url := s.url, type := "codegen", code := generatedCode,
        createdAt := nowIso, status := "Not Run" }
    let fs' :=
      match lookupKey s.outputFile st.fs with
      | some _ => eraseKey s.outputFile st.fs
      | none => st.fs
    Except.ok (test,
      { sessions := eraseKey sessionId st.sessions,
        procs := st.procs, fs := fs' })

/-- POST /api/codegen/stop: 404 for an unknown id; otherwise kills the
subprocess if not yet killed, reads and deletes the artifact file if
present (a missing file is a no-op), and deregisters the session.
Returns the final generatedCode. -/
def stopReq (st : ServerState) (sessionId : String) :
    Except ApiError (String × ServerState) :=
  match lookupKey sessionId st.sessions with
  | none => Except.error ApiError.notFound
  | some s =>
    let procs' :=
      match lookupKey sessionId st.procs with
      | some p =>
        if !p.killed then
          (sessionId, { p with killed := true, exited := true }) ::
            eraseKey sessionId st.procs
        else st.procs
      | none => st.procs
    let generatedCode := (lookupKey s.outputFile st.fs).getD ""
    let fs' :=
      match lookupKey s.outputFile st.fs with
      | some _ => eraseKey s.outputFile st.fs
      | none => st.fs
    Except.ok (generatedCode,
      { sessions := eraseKey sessionId st.sessions,
        procs := procs', fs := fs' })

/-- Projection of a successful endpoint answer. -/
def okOf {α : Type} : Except ApiError α → Option α
  | Except.ok a => some a
  | Except.error _ => none

/-- C5 counterexample: after the subprocess exits on its own (close
event, no kill), status still reports isRunning = true although the
process is no longer alive, refuting running = alive. The state is
reached by start followed by the close event. -/
theorem C5_running_counterexample :
    ((okOf (statusReq
        (closeEvent (startCodegen initState "123" "https://example.com" "t1")
          "123") "123")).map StatusResp.isRunning = some true)
    ∧ ((lookupKey "123"
        (closeEvent (startCodegen initState "123" "https://example.com" "t1")
          "123").procs).map ProcHandle.alive = some false) := by
  decide

/-- C5 (amended): for every registered session, status returns the
artifact file content, empty when the file does not yet exist, and an
isRunning flag that is true iff kill() has not been invoked on the
subprocess (the killed flag is unset) - a subprocess that exited on its
own is still reported as running; status on an unknown session id fails
with the 404 not-found error. -/
theorem C5_status_report (st : ServerState) (sid : String)
    (s : CodegenSession) (p : ProcHandle)
    (hs : lookupKey sid st.sessions = some s)
    (hp : lookupKey sid st.procs = some p) :
    statusReq st sid = Except.ok
      { sessionId := sid, isRunning := !p.killed,
        generatedCode := (lookupKey s.outputFile st.fs).getD "",
        testName := s.testName, url := s.url }
    ∧ (∀ (st2 : ServerState) (sid2 : String),
        lookupKey sid2 st2.sessions = (none : Option CodegenSession) →
        statusReq st2 sid2 = Except.error ApiError.notFound) := by
  constructor
  · simp [statusReq, hs, hp]
  · intro st2 sid2 h2
    simp [statusReq, h2]

/-- Witness for C5 (amended) at a freshly started session with no
artifact file, and at an unknown id. -/
theorem C5_status_report_witness :
    statusReq (startCodegen initState "123" "https://example.com" "t1")
        "123" = Except.ok
      { sessionId := "123", isRunning := !(false : Bool),
        generatedCode := (lookupKey
          (".codegen-" ++ "123" ++ ".ts")
          (startCodegen initState "123" "https://example.com" "t1").fs).getD "",
        testName := "t1", url := "https://example.com" }
    ∧ statusReq initState "nope" = Except.error ApiError.notFound := by
  have h := C5_status_report
    (startCodegen initState "123" "https://example.com" "t1") "123"
    { sessionId := "123", testName := "t1", url := "https://example.com",
      outputFile := ".codegen-" ++ "123" ++ ".ts", generatedCode := "" }
    { killed := false, exited := false } (by decide) (by decide)
  exact ⟨h.1, h.2 initState "nope" rfl⟩

/-- A demo state for the save counterexample: one started session whose
subprocess is alive and whose artifact file has been written. -/
def c6DemoState : ServerState :=
  let st0 := startCodegen initState "7" "https://u.example" "t1"
  { st0 with fs := (".codegen-7.ts", "recorded code") :: st0.fs }

/-- C6 counterexample: save on a live session succeeds, yet the
subprocess is left with killed = false (save never terminates it) and the
record status field is "Not Run", not "not run". -/
theorem C6_save_counterexample :
    ((okOf (saveReq c6DemoState "7" "t1" 1700000000000
        "2026-01-01T00:00:00.000Z")).map
      (fun r => (lookupKey "7" r.2.procs).map ProcHandle.killed)) =
      some (some false)
    ∧ ((okOf (saveReq c6DemoState "7" "t1" 1700000000000
        "2026-01-01T00:00:00.000Z")).map (fun r => r.1.status)) =
      some "Not Run"
    ∧ "Not Run" ≠ "not run" := by
  decide

/-- C6 (amended): for every registered session, save reads the artifact
one final time (empty when missing), returns a test record with id
"test:" ++ Date.now(), the chosen name, the session url, the read code, a
creation timestamp, and status "Not Run"; it deletes the artifact file
and deregisters the session, so a subsequent status on the same id fails
with the not-found error, but it leaves the subprocess handles untouched
(the subprocess is not terminated). Save on an unknown id fails with the
not-found error. -/
theorem C6_save_destructive (st : ServerState) (sid tn : String)
    (nowMs : Nat) (nowIso : String) (s : CodegenSession)
    (hs : lookupKey sid st.sessions = some s) :
    (okOf (saveReq st sid tn nowMs nowIso)).map Prod.fst =
      some { id := "test:" ++ toString nowMs,
             name := if tn = "" then s.testName else tn,
             url := s.url, type := "codegen",
             code := (lookupKey s.outputFile st.fs).getD "",
             createdAt := nowIso, status := "Not Run" }
    ∧ (okOf (saveReq st sid tn nowMs nowIso)).map (fun r => r.2.procs) =
      some st.procs
    ∧ (okOf (saveReq st sid tn nowMs nowIso)).map
        (fun r => lookupKey sid r.2.sessions) = some none
    ∧ (okOf (saveReq st sid tn nowMs nowIso)).map
        (fun r => lookupKey s.outputFile r.2.fs) = some none
    ∧ (okOf (saveReq st sid tn nowMs nowIso)).map
        (fun r => statusReq r.2 sid) =
      some (Except.error ApiError.notFound)
    ∧ (∀ (st2 : ServerState) (sid2 tn2 : String) (ms : Nat) (iso : String),
        lookupKey sid2 st2.sessions = (none : Option CodegenSession) →
        saveReq st2 sid2 tn2 ms iso = Except.error ApiError.notFound) := by
  refine ⟨?_, ?_, ?_, ?_, ?_, ?_⟩
  · simp [saveReq, hs, okOf]
  · simp [saveReq, hs, okOf]
  · simp [saveReq, hs, okOf, lookupKey_eraseKey]
  · cases hf : lookupKey s.outputFile st.fs with
    | none => simp [saveReq, hs, okOf, hf]
    | some content => simp [saveReq, hs, okOf, hf, lookupKey_eraseKey]
  · simp [saveReq, hs, okOf, statusReq, lookupKey_eraseKey]
  · intro st2 sid2 tn2 ms iso h2
    simp [saveReq, h2]

/-- Witness for C6 (amended) at the demo state, with the unknown-id
clause instantiated at the empty state. -/
theorem C6_save_destructive_witness :
    (okOf (saveReq c6DemoState "7" "t2" 5 "iso")).map Prod.fst =
      some { id := "test:" ++ toString 5,
             name := if "t2" = "" then "t1" else "t2",
             url := "https://u.example", type := "codegen",
             code := (lookupKey ".codegen-7.ts" c6DemoState.fs).getD "",
             createdAt := "iso", status := "Not Run" }
    ∧ saveReq initState "ghost" "" 0 "" = Except.error ApiError.notFound := by
  have h := C6_save_destructive c6DemoState "7" "t2" 5 "iso"
    { sessionId := "7", testName := "t1", url := "https://u.example",
      outputFile := ".codegen-7.ts", generatedCode := "" } (by decide)
  exact ⟨h.1, h.2.2.2.2.2 initState "ghost" "" 0 "" rfl⟩

/-- C7: stop on a registered session whose artifact file is absent
succeeds with no error (the missing file is a no-op; the returned code is
empty), and the session is destroyed, so a subsequent status, stop, or
save on the same id fails with the not-found error; and stop, save, and
status on a session id that is not registered (never created or already
destroyed) all fail with the not-found error. -/
theorem C7_stop_idempotent (st : ServerState) (sid : String)
    (s : CodegenSession)
    (hs : lookupKey sid st.sessions = some s)
    (hf : lookupKey s.outputFile st.fs = none) :
    (okOf (stopReq st sid)).map Prod.fst = some ""
    ∧ (okOf (stopReq st sid)).map (fun r => lookupKey sid r.2.sessions) =
      some none
    ∧ (okOf (stopReq st sid)).map (fun r => statusReq r.2 sid) =
      some (Except.error ApiError.notFound)
    ∧ (okOf (stopReq st sid)).map (fun r => stopReq r.2 sid) =
      some (Except.error ApiError.notFound)
    ∧ (okOf (stopReq st sid)).map (fun r => saveReq r.2 sid "" 0 "") =
      some (Except.error ApiError.notFound)
    ∧ (∀ (st2 : ServerState) (sid2 : String),
        lookupKey sid2 st2.sessions = (none : Option CodegenSession) →
        stopReq st2 sid2 = Except.error ApiError.notFound
        ∧ statusReq st2 sid2 = Except.error ApiError.notFound
        ∧ ∀ (tn : String) (ms : Nat) (iso : String),
            saveReq st2 sid2 tn ms iso = Except.error ApiError.notFound) := by
  refine ⟨?_, ?_, ?_, ?_, ?_, ?_⟩
  · simp [stopReq, hs, hf, okOf]
  · simp [stopReq, hs, hf, okOf, lookupKey_eraseKey]
  · simp [stopReq, hs, hf, okOf, statusReq, lookupKey_eraseKey]
  · simp [stopReq, hs, hf, okOf, lookupKey_eraseKey]
  · simp [stopReq, hs, hf, okOf, saveReq, lookupKey_eraseKey]
  · intro st2 sid2 h2
    exact ⟨by simp [stopReq, h2], by simp [statusReq, h2],
      fun tn ms iso => by simp [saveReq, h2]⟩

/-- Witness for C7 at a freshly started session (no artifact file yet),
with the unknown-id clause instantiated at the empty state. -/
theorem C7_stop_idempotent_witness :
    (okOf (stopReq (startCodegen initState "9" "https://u.example" "t9")
        "9")).map Prod.fst = some ""
    ∧ stopReq initState "ghost" = Except.error ApiError.notFound
    ∧ statusReq initState "ghost" = Except.error ApiError.notFound
    ∧ saveReq initState "ghost" "n" 1 "iso" =
      Except.error ApiError.notFound := by
  have h := C7_stop_idempotent
    (startCodegen initState "9" "https://u.example" "t9") "9"
    { sessionId := "9", testName := "t9", url := "https://u.example",
      outputFile := ".codegen-9.ts", generatedCode := "" }
    (by decide) (by decide)
  have hg := h.2.2.2.2.2 initState "ghost" rfl
  exact ⟨h.1, hg.1, hg.2.1, hg.2.2 "n" 1 "iso"⟩
